import Mathlib

/-!
Verification of the Maxy display-controller core (src/Maxy/__init__.py).

Bytes are modelled as `Nat` (values kept below 256 by the byte-encoding
functions), byte sequences as `List Nat`, Python ints as `Int`.
Python exceptions raised by pure encoders are modelled with `Except String`;
operations on the stateful device model return an `OpResult` that records the
state after the call (including mutations performed before a raise), the byte
sequences written to the serial sink, and the exception, if one was raised.
-/

deriving instance DecidableEq for Except

namespace Maxy

/-- Embeds `escape_message` (src/Maxy/__init__.py lines 8-14): every input
byte `c` with `c >= 0xfc` is preceded by an extra `0xfc` byte. -/
def escape_message : List Nat → List Nat
  | [] => []
  | c :: rest =>
    if 0xfc ≤ c then 0xfc :: c :: escape_message rest
    else c :: escape_message rest

/-- The error text produced by `range_validate_int` on an out-of-range value;
it names the offending parameter, the value received and the bounds. -/
def range_error_message (param_name : String) (val minimum maximum : Int) : String :=
  "Parameter " ++ param_name ++ " is outside the allowed range. Got " ++
    toString val ++ ", expected it to be " ++ toString minimum ++ "-" ++ toString maximum

/-- Embeds `range_validate_int` (lines 17-22).  The `isinstance` check cannot
fail in this model, where every value is an `Int`. -/
def range_validate_int (val minimum maximum : Int) (param_name : String) :
    Except String Int :=
  if minimum ≤ val ∧ val ≤ maximum then .ok val
  else .error (range_error_message param_name val minimum maximum)

/-- Big-endian base-256 digits of `v`, exactly `len` bytes. -/
def bytesBE : Nat → Nat → List Nat
  | 0, _ => []
  | n + 1, v => (v / 256 ^ n) % 256 :: bytesBE n v

/-- Embeds Python `val.to_bytes(length=len, byteorder="big", signed=False)`:
raises `OverflowError` when `val` is negative or does not fit in `len` bytes. -/
def to_bytes_unsigned (len : Nat) (val : Int) : Except String (List Nat) :=
  if 0 ≤ val ∧ val < (256 : Int) ^ len then .ok (bytesBE len val.toNat)
  else .error "OverflowError: int too big to convert"

/-- Embeds Python `val.to_bytes(length=len, byteorder="big", signed=True)`:
two's-complement big-endian encoding of a value that fits in `len` bytes. -/
def to_bytes_signed (len : Nat) (val : Int) : Except String (List Nat) :=
  if -((256 : Int) ^ len / 2) ≤ val ∧ val < (256 : Int) ^ len / 2 then
    .ok (bytesBE len ((val % (256 : Int) ^ len).toNat))
  else .error "OverflowError: int too big to convert"

namespace MaxyMessages

def MID_RESET_CONFIG : List Nat := [0x32]

def MID_SET_ALL_INTENSITY : List Nat := [0x33]

def MID_SET_MODULE_TYPE : List Nat := [0x3a]

def MID_ENABLE_MODULE : List Nat := [0x3b]

def MID_SET_MODULE_TARGET : List Nat := [0x42]

def MID_SET_SUB_MODULE_TARGET : List Nat := [0x43]

def MID_SET_MODULE_IMMEDIATE_TARGET : List Nat := [0x44]

def MID_SET_SUB_MODULE_IMMEDIATE_TARGET : List Nat := [0x45]

def MID_SET_MODULE_INTENSITY : List Nat := [0x46]

def MID_SET_MODULE_SPEED_DIVIDER : List Nat := [0x47]

/-- Embeds `MaxyMessages.set_all_module_intensity` (lines 44-48). -/
def set_all_module_intensity (intensity : Int) : Except String (List Nat) :=
  match range_validate_int intensity 0 15 "intensity" with
  | .error e => .error e
  | .ok _ =>
  match to_bytes_unsigned 1 intensity with
  | .error e => .error e
  | .ok intensity_raw => .ok (MID_SET_ALL_INTENSITY ++ intensity_raw)

/-- Embeds `MaxyMessages.set_module_target_message` (lines 50-56). -/
def set_module_target_message (module_index target : Int) :
    Except String (List Nat) :=
  match range_validate_int module_index 0 63 "module_index" with
  | .error e => .error e
  | .ok _ =>
  match range_validate_int target (-9999999) 99999999 "target" with
  | .error e => .error e
  | .ok _ =>
  match to_bytes_unsigned 1 module_index with
  | .error e => .error e
  | .ok module_raw =>
  match to_bytes_signed 4 target with
  | .error e => .error e
  | .ok target_raw => .ok (MID_SET_MODULE_TARGET ++ module_raw ++ target_raw)

/-- Embeds `MaxyMessages.set_sub_module_immediate_target_message` (lines 66-73).
Note: the source never range-validates `sub_module` here. -/
def set_sub_module_immediate_target_message (module_index sub_module target : Int) :
    Except String (List Nat) :=
  match range_validate_int module_index 0 63 "module_index" with
  | .error e => .error e
  | .ok _ =>
  match range_validate_int target (-9999999) 99999999 "target" with
  | .error e => .error e
  | .ok _ =>
  match to_bytes_unsigned 1 module_index with
  | .error e => .error e
  | .ok module_raw =>
  match to_bytes_unsigned 1 sub_module with
  | .error e => .error e
  | .ok sub_module_raw =>
  match to_bytes_signed 4 target with
  | .error e => .error e
  | .ok target_raw =>
    .ok (MID_SET_SUB_MODULE_IMMEDIATE_TARGET ++ module_raw ++ sub_module_raw ++ target_raw)

/-- Embeds `MaxyMessages.set_sub_module_target_message` (lines 75-83). -/
def set_sub_module_target_message (module_index sub_module target : Int) :
    Except String (List Nat) :=
  match range_validate_int module_index 0 63 "module_index" with
  | .error e => .error e
  | .ok _ =>
  match range_validate_int sub_module 0 7 "sub_module" with
  | .error e => .error e
  | .ok _ =>
  match range_validate_int target (-9999999) 99999999 "target" with
  | .error e => .error e
  | .ok _ =>
  match to_bytes_unsigned 1 module_index with
  | .error e => .error e
  | .ok module_raw =>
  match to_bytes_unsigned 1 sub_module with
  | .error e => .error e
  | .ok sub_module_raw =>
  match to_bytes_signed 4 target with
  | .error e => .error e
  | .ok target_raw =>
    .ok (MID_SET_SUB_MODULE_TARGET ++ module_raw ++ sub_module_raw ++ target_raw)

/-- Embeds `MaxyMessages.set_module_intensity` (lines 85-91).  Note: the
second validation checks `module_index` (not `intensity`) against `[0,15]`
under the parameter name "intensity", exactly as the source does. -/
def set_module_intensity (module_index intensity : Int) : Except String (List Nat) :=
  match range_validate_int module_index 0 63 "module_index" with
  | .error e => .error e
  | .ok _ =>
  match range_validate_int module_index 0 15 "intensity" with
  | .error e => .error e
  | .ok _ =>
  match to_bytes_unsigned 1 module_index with
  | .error e => .error e
  | .ok module_raw =>
  match to_bytes_unsigned 1 intensity with
  | .error e => .error e
  | .ok intensity_raw => .ok (MID_SET_MODULE_INTENSITY ++ module_raw ++ intensity_raw)

/-- Embeds `MaxyMessages.set_module_speed_divider` (lines 93-99).  Note: the
source validates `module_index` (not the divider, which it calls `intensity`)
against `[0,65000]`, and prefixes `MID_SET_MODULE_INTENSITY`, not
`MID_SET_MODULE_SPEED_DIVIDER`, exactly as written there. -/
def set_module_speed_divider (module_index intensity : Int) : Except String (List Nat) :=
  match range_validate_int module_index 0 63 "module_index" with
  | .error e => .error e
  | .ok _ =>
  match range_validate_int module_index 0 65000 "speed_divider" with
  | .error e => .error e
  | .ok _ =>
  match to_bytes_unsigned 1 module_index with
  | .error e => .error e
  | .ok module_raw =>
  match to_bytes_unsigned 2 intensity with
  | .error e => .error e
  | .ok speed_divider_raw =>
    .ok (MID_SET_MODULE_INTENSITY ++ module_raw ++ speed_divider_raw)

/-- Embeds `MaxyMessages.set_module_type` (lines 101-107). -/
def set_module_type (module_index module_type : Int) : Except String (List Nat) :=
  match range_validate_int module_index 0 63 "module_index" with
  | .error e => .error e
  | .ok _ =>
  match range_validate_int module_type 0 63 "module_type" with
  | .error e => .error e
  | .ok _ =>
  match to_bytes_unsigned 1 module_index with
  | .error e => .error e
  | .ok module_raw =>
  match to_bytes_unsigned 1 module_type with
  | .error e => .error e
  | .ok module_type_raw => .ok (MID_SET_MODULE_TYPE ++ module_raw ++ module_type_raw)

end MaxyMessages

/-- Embeds `MaxyController.send_message` (lines 196-197): the byte sequence a
single `send_message(msg)` call hands to the serial sink. -/
def frame (msg : List Nat) : List Nat := 0xfd :: (escape_message msg ++ [0xfe])

/-- Embeds `clamp` (lines 200-201). -/
def clamp (value min_value max_value : Int) : Int :=
  min max_value (max min_value value)

/-- The per-kind class constants of `MaxyModule` and its subclasses
(lines 204-262): sub-module count, target range, wire type id, and whether
the main-module target may be set directly. -/
structure ModuleKind where
  SUB_MODULE_COUNT : Nat
  TARGET_MIN : Int
  TARGET_MAX : Int
  MODULE_TYPE_ID : Int
  ALLOW_MAIN_MODULE_TARGET_CHANGES : Bool
  deriving DecidableEq

/-- The constants of the base class `MaxyModule` (lines 204-210). -/
def MaxyModule_base : ModuleKind :=
  ⟨1, -9999999, 99999999, 0, true⟩

/-- The constants of `MaxyModule_8x7seg` (lines 248-253); the unlisted ones
are inherited from `MaxyModule`. -/
def MaxyModule_8x7seg : ModuleKind :=
  ⟨1, -9999999, 99999999, 3, true⟩

/-- The constants of `MaxyModule_2x4x7seg` (lines 256-262). -/
def MaxyModule_2x4x7seg : ModuleKind :=
  ⟨2, -999, 9999, 4, false⟩

/-- The mutable state of a `MaxyModule` (lines 204-216): its kind constants,
its registration index, the cached `_intensity`, and the cached `_target` of
each owned `MaxySubModule` in id order (sub-module `i` holds `sub_modules[i]`;
each `MaxySubModule` carries only its id, parent reference and `_target`). -/
structure MaxyModule where
  kind : ModuleKind
  module_index : Int
  intensity : Int
  sub_modules : List Int
  deriving DecidableEq

/-- Embeds `MaxyModule.__init__` (lines 212-216): cached intensity `0`, and
`SUB_MODULE_COUNT` sub-modules whose cached `_target` starts at `0`
(line 269). -/
def MaxyModule.init (kind : ModuleKind) (module_index : Int) : MaxyModule :=
  ⟨kind, module_index, 0, List.replicate kind.SUB_MODULE_COUNT 0⟩

/-- Outcome of one operation on the device model: the state after the call
(mutations made before a raise included), the byte sequences handed to the
serial sink by `send_message`, in order, and the raised exception if any. -/
structure OpResult (σ : Type) where
  state : σ
  writes : List (List Nat)
  error : Option String
  deriving DecidableEq

/-- Embeds `MaxySubModule._set_target` (lines 271-280) for the sub-module
with cached target `cache`, id `sub_module_id`, inside a module of kind
`kind` at `module_index`.  Faithful ordering: the clamped value is compared
with the cache; on a difference the cache is updated first, then the message
is encoded (which may raise) and framed and written. -/
def MaxySubModule.set_target (kind : ModuleKind) (module_index sub_module_id : Int)
    (cache target : Int) : OpResult Int :=
  let t := clamp target kind.TARGET_MIN kind.TARGET_MAX
  if t = cache then ⟨cache, [], none⟩
  else
    match MaxyMessages.set_sub_module_target_message module_index sub_module_id t with
    | .ok msg => ⟨t, [frame msg], none⟩
    | .error e => ⟨t, [], some e⟩

/-- Embeds `MaxySubModule.set_immediate_target` (lines 287-296), same shape
as `MaxySubModule.set_target` but encoding the immediate-target message. -/
def MaxySubModule.set_immediate_target (kind : ModuleKind) (module_index sub_module_id : Int)
    (cache target : Int) : OpResult Int :=
  let t := clamp target kind.TARGET_MIN kind.TARGET_MAX
  if t = cache then ⟨cache, [], none⟩
  else
    match MaxyMessages.set_sub_module_immediate_target_message module_index sub_module_id t with
    | .ok msg => ⟨t, [frame msg], none⟩
    | .error e => ⟨t, [], some e⟩

/-- Embeds `MaxyModule._set_intensity` (lines 221-225): clamp to `[0,15]`,
and only on a change update the cache and then encode and send. -/
def MaxyModule.set_intensity (st : MaxyModule) (intensity : Int) : OpResult MaxyModule :=
  let i := clamp intensity 0 15
  if i = st.intensity then ⟨st, [], none⟩
  else
    match MaxyMessages.set_module_intensity st.module_index i with
    | .ok msg => ⟨{ st with intensity := i }, [frame msg], none⟩
    | .error e => ⟨{ st with intensity := i }, [], some e⟩

/-- Embeds `MaxyModule._set_target` (lines 229-233): raise `TypeError` when
the kind forbids direct main-target changes, otherwise delegate to sub-module
0's target setter.  (The trailing `target = clamp(...)` of line 233 rebinds a
local and has no effect.) -/
def MaxyModule.set_target (st : MaxyModule) (target : Int) : OpResult MaxyModule :=
  if st.kind.ALLOW_MAIN_MODULE_TARGET_CHANGES = false then
    ⟨st, [], some "TypeError: You cannot change the target directly on this module. Change it on submodules instead"⟩
  else
    match st.sub_modules with
    | [] => ⟨st, [], some "IndexError: list index out of range"⟩
    | c :: rest =>
      let r := MaxySubModule.set_target st.kind st.module_index 0 c target
      ⟨{ st with sub_modules := r.state :: rest }, r.writes, r.error⟩

/-- Embeds `MaxyModule.set_immediate_target` (lines 240-243). -/
def MaxyModule.set_immediate_target (st : MaxyModule) (target : Int) : OpResult MaxyModule :=
  if st.kind.ALLOW_MAIN_MODULE_TARGET_CHANGES = false then
    ⟨st, [], some "TypeError: You cannot change the target directly on this module. Change it on submodules instead"⟩
  else
    match st.sub_modules with
    | [] => ⟨st, [], some "IndexError: list index out of range"⟩
    | c :: rest =>
      let r := MaxySubModule.set_immediate_target st.kind st.module_index 0 c target
      ⟨{ st with sub_modules := r.state :: rest }, r.writes, r.error⟩

/-- A named reference registered in the controller's name lookup: either a
whole module or one of its sub-modules, by position. -/
inductive NameRef where
  | module (idx : Nat)
  | sub (idx : Nat) (sub_idx : Nat)
  deriving DecidableEq

/-- Embeds `MaxModuleDef` (lines 301-306). -/
structure MaxModuleDef where
  name : Option String
  module_type : ModuleKind
  sub_module_names : List (Option String)
  deriving DecidableEq

/-- Embeds `MaxyController.define_modules` (lines 159-174): each definition
becomes a freshly constructed module whose `module_index` is its position;
the name lookup maps a present module name to the module and, when the kind
has more than one sub-module, each present sub-module name to that
sub-module.  (`if not module_def: continue` on line 164 never fires for the
`MaxModuleDef` instances modelled here, which are always truthy.) -/
def define_modules (module_definitions : List MaxModuleDef) :
    List MaxyModule × List (String × NameRef) :=
  let mods := module_definitions.enum.map
    (fun p => MaxyModule.init p.2.module_type (Int.ofNat p.1))
  let names := module_definitions.enum.flatMap (fun p =>
    (match p.2.name with
     | some n => [(n, NameRef.module p.1)]
     | none => []) ++
    (if 1 < p.2.module_type.SUB_MODULE_COUNT then
      (p.2.sub_module_names.zip (List.range p.2.module_type.SUB_MODULE_COUNT)).flatMap
        (fun q =>
          match q.1 with
          | some n => [(n, NameRef.sub p.1 q.2)]
          | none => [])
     else []))
  (mods, names)

/-- Scanner deciding that a byte sequence contains no unescaped occurrence of
a sentinel byte: reading left to right, an `0xfc` escape byte protects the
byte right after it; every byte read outside such a pair must be below
`0xfc` (so no bare `0xfc`, `0xfd` or `0xfe` appears). -/
def no_unescaped_sentinel : List Nat → Bool
  | [] => true
  | [c] => decide (c < 0xfc)
  | c :: d :: rest =>
    if c = 0xfc then no_unescaped_sentinel rest
    else decide (c < 0xfc) && no_unescaped_sentinel (d :: rest)

theorem range_validate_int_ok {val minimum maximum : Int} (param_name : String)
    (h : minimum ≤ val ∧ val ≤ maximum) :
    range_validate_int val minimum maximum param_name = .ok val := by
  unfold range_validate_int
  exact if_pos h

theorem range_validate_int_err {val minimum maximum : Int} (param_name : String)
    (h : ¬(minimum ≤ val ∧ val ≤ maximum)) :
    range_validate_int val minimum maximum param_name =
      .error (range_error_message param_name val minimum maximum) := by
  unfold range_validate_int
  exact if_neg h

theorem to_bytes_unsigned_one_ok {val : Int} (h0 : 0 ≤ val) (h : val < 256) :
    to_bytes_unsigned 1 val = .ok (bytesBE 1 val.toNat) := by
  unfold to_bytes_unsigned
  exact if_pos ⟨h0, by simpa using h⟩

theorem to_bytes_unsigned_two_ok {val : Int} (h0 : 0 ≤ val) (h : val < 65536) :
    to_bytes_unsigned 2 val = .ok (bytesBE 2 val.toNat) := by
  unfold to_bytes_unsigned
  refine if_pos ⟨h0, ?_⟩
  norm_num
  omega

theorem to_bytes_signed_four_ok {val : Int} (h0 : -2147483648 ≤ val)
    (h : val < 2147483648) :
    to_bytes_signed 4 val = .ok (bytesBE 4 ((val % 4294967296).toNat)) := by
  have hp : ((256 : Int) ^ 4) = 4294967296 := by norm_num
  unfold to_bytes_signed
  rw [hp]
  refine if_pos ⟨by omega, by omega⟩

theorem bytesBE_one (v : Nat) : bytesBE 1 v = [v % 256] := by
  simp [bytesBE]

theorem clamp_le_right (v a b : Int) : clamp v a b ≤ b :=
  min_le_left _ _

theorem left_le_clamp (v : Int) {a b : Int} (h : a ≤ b) : a ≤ clamp v a b :=
  le_min h (le_max_left _ _)

theorem clamp_of_mem {v a b : Int} (h1 : a ≤ v) (h2 : v ≤ b) : clamp v a b = v := by
  unfold clamp
  rw [max_eq_right h1, min_eq_right h2]

theorem clamp_of_le_left {v a b : Int} (hab : a ≤ b) (h : v ≤ a) : clamp v a b = a := by
  unfold clamp
  rw [max_eq_left h, min_eq_right hab]

theorem clamp_of_le_right {v a b : Int} (hab : a ≤ b) (h : b ≤ v) : clamp v a b = b := by
  unfold clamp
  rw [max_eq_right (hab.trans h), min_eq_left h]

theorem set_sub_module_target_message_eq_ok {mi si t : Int}
    (hmi : 0 ≤ mi ∧ mi ≤ 63) (hsi : 0 ≤ si ∧ si ≤ 7)
    (ht : -9999999 ≤ t ∧ t ≤ 99999999) :
    MaxyMessages.set_sub_module_target_message mi si t =
      .ok ([0x43] ++ bytesBE 1 mi.toNat ++ bytesBE 1 si.toNat ++
        bytesBE 4 ((t % 4294967296).toNat)) := by
  have e1 := range_validate_int_ok "module_index" hmi
  have e2 := range_validate_int_ok "sub_module" hsi
  have e3 := range_validate_int_ok "target" ht
  have u1 := to_bytes_unsigned_one_ok hmi.1 (by omega)
  have u2 := to_bytes_unsigned_one_ok hsi.1 (by omega)
  have s4 : to_bytes_signed 4 t = .ok (bytesBE 4 ((t % 4294967296).toNat)) :=
    to_bytes_signed_four_ok (by omega) (by omega)
  simp only [MaxyMessages.set_sub_module_target_message, e1, e2, e3, u1, u2, s4,
    MaxyMessages.MID_SET_SUB_MODULE_TARGET]

theorem set_sub_module_immediate_target_message_eq_ok {mi si t : Int}
    (hmi : 0 ≤ mi ∧ mi ≤ 63) (hsi : 0 ≤ si ∧ si < 256)
    (ht : -9999999 ≤ t ∧ t ≤ 99999999) :
    MaxyMessages.set_sub_module_immediate_target_message mi si t =
      .ok ([0x45] ++ bytesBE 1 mi.toNat ++ bytesBE 1 si.toNat ++
        bytesBE 4 ((t % 4294967296).toNat)) := by
  have e1 := range_validate_int_ok "module_index" hmi
  have e3 := range_validate_int_ok "target" ht
  have u1 := to_bytes_unsigned_one_ok hmi.1 (by omega)
  have u2 := to_bytes_unsigned_one_ok hsi.1 hsi.2
  have s4 : to_bytes_signed 4 t = .ok (bytesBE 4 ((t % 4294967296).toNat)) :=
    to_bytes_signed_four_ok (by omega) (by omega)
  simp only [MaxyMessages.set_sub_module_immediate_target_message, e1, e3, u1, u2, s4,
    MaxyMessages.MID_SET_SUB_MODULE_IMMEDIATE_TARGET]

/-- Claim C2 counterexample: the byte `0xfd` does not pass through
`escape_message` unchanged — the routine inserts the escape prefix `0xfc`
before it, because the source escapes every byte `>= 0xfc`, not only `0xfc`
itself. -/
theorem claim_C2_counterexample :
    escape_message [0xfd] = [0xfc, 0xfd] ∧ escape_message [0xfd] ≠ [0xfd] := by
  decide

/-- Claim C2, amended: for every byte `c` of the input, `escape_message`
emits `0xfc` then `c` when `c >= 0xfc` (so for `0xfc`, `0xfd`, `0xfe` and
`0xff`, not only for `0xfc`), and emits `c` unchanged otherwise; `0xfd` and
`0xfe` therefore do receive the escape prefix. -/
theorem claim_C2_escape_amended (msg : List Nat) :
    escape_message msg =
      msg.flatMap (fun c => if 0xfc ≤ c then [0xfc, c] else [c]) := by
  induction msg with
  | nil => rfl
  | cons c rest ih =>
    by_cases h : 0xfc ≤ c <;> simp [escape_message, h, ih]

/-- Claim C3: every framed message is `0xfd ++ escape_message(payload) ++ 0xfe`,
hence starts with `0xfd` and ends with `0xfe`, and the escaped region contains
no unescaped occurrence of `0xfc`, `0xfd` or `0xfe`: scanning left to right,
every such sentinel byte sits right after an `0xfc` escape byte. -/
theorem claim_C3_frame_invariant (payload : List Nat) :
    frame payload = 0xfd :: (escape_message payload ++ [0xfe]) ∧
    (frame payload).head? = some 0xfd ∧
    (frame payload).getLast? = some 0xfe ∧
    no_unescaped_sentinel (escape_message payload) = true := by
  refine ⟨rfl, rfl, ?_, ?_⟩
  · show (0xfd :: (escape_message payload ++ [0xfe])).getLast? = some 0xfe
    rw [← List.cons_append, List.getLast?_concat]
  · induction payload with
    | nil => rfl
    | cons c rest ih =>
      by_cases h : 0xfc ≤ c
      · simpa [escape_message, h, no_unescaped_sentinel] using ih
      · have h2 : c < 0xfc := by omega
        cases hm : escape_message rest with
        | nil => simp [escape_message, h, no_unescaped_sentinel, hm, h2]
        | cons a l =>
          have h1 : c ≠ 0xfc := by omega
          have := ih
          rw [hm] at this
          simp [escape_message, h, no_unescaped_sentinel, hm, h2, this, h1]

/-- Claim C4 is contradicted by the source (code bug): the encoders do not
validate each field against its own range.  `set_module_intensity` accepts
intensity 16 (it checks `module_index`, not the intensity, against `[0,15]`),
`set_module_speed_divider` accepts divider 65001 (it checks `module_index`
against `[0,65000]`), and `set_sub_module_immediate_target_message` accepts
sub-module id 8 (it never validates the sub-module id); all three return
encoded bytes instead of raising. -/
theorem claim_C4_validation_gaps :
    MaxyMessages.set_module_intensity 0 16 = .ok [0x46, 0x00, 0x10] ∧
    MaxyMessages.set_module_speed_divider 0 65001 = .ok [0x46, 0x00, 0xfd, 0xe9] ∧
    MaxyMessages.set_sub_module_immediate_target_message 0 8 0 =
      .ok [0x45, 0x00, 0x08, 0x00, 0x00, 0x00, 0x00] := by
  decide

/-- Claim C10: for module_index in [0,63] and intensity in [0,255], the
`set_module_intensity` encoder fails exactly when module_index exceeds 15
(the module index is what gets checked against the `[0,15]` bound, under the
parameter name "intensity"); for module_index in [0,15] it returns the
3-byte message `0x46 ++ module_index ++ intensity` for every intensity in
[0,255]. -/
theorem claim_C10_intensity_misvalidation (m i : Int)
    (hm : 0 ≤ m ∧ m ≤ 63) (hi : 0 ≤ i ∧ i ≤ 255) :
    ((MaxyMessages.set_module_intensity m i).isOk = false ↔ 15 < m) ∧
    (15 < m → MaxyMessages.set_module_intensity m i =
      .error (range_error_message "intensity" m 0 15)) ∧
    (m ≤ 15 → MaxyMessages.set_module_intensity m i = .ok [0x46, m.toNat, i.toNat]) := by
  have e1 := range_validate_int_ok "module_index" hm
  by_cases h15 : m ≤ 15
  · have e2 := range_validate_int_ok "intensity" ⟨hm.1, h15⟩
    have u1 : to_bytes_unsigned 1 m = .ok (bytesBE 1 m.toNat) :=
      to_bytes_unsigned_one_ok hm.1 (by omega)
    have u2 : to_bytes_unsigned 1 i = .ok (bytesBE 1 i.toNat) :=
      to_bytes_unsigned_one_ok hi.1 (by omega)
    have hmod_m : m.toNat % 256 = m.toNat := Nat.mod_eq_of_lt (by omega)
    have hmod_i : i.toNat % 256 = i.toNat := Nat.mod_eq_of_lt (by omega)
    have hmsg : MaxyMessages.set_module_intensity m i = .ok [0x46, m.toNat, i.toNat] := by
      simp only [MaxyMessages.set_module_intensity, e1, e2, u1, u2,
        MaxyMessages.MID_SET_MODULE_INTENSITY, bytesBE_one, hmod_m, hmod_i]
      rfl
    refine ⟨?_, fun hlt => absurd hlt (by omega), fun _ => hmsg⟩
    have hno : ¬(15 : Int) < m := by omega
    rw [hmsg]
    simp [Except.isOk, Except.toBool, hno]
  · have e2 : range_validate_int m 0 15 "intensity" =
        .error (range_error_message "intensity" m 0 15) :=
      range_validate_int_err "intensity" (by omega)
    have hmsg : MaxyMessages.set_module_intensity m i =
        .error (range_error_message "intensity" m 0 15) := by
      simp only [MaxyMessages.set_module_intensity, e1, e2]
    refine ⟨?_, fun _ => hmsg, fun hle => absurd hle h15⟩
    have hyes : (15 : Int) < m := by omega
    rw [hmsg]
    simp [Except.isOk, Except.toBool, hyes]

/-- Witness for claim C10 at module_index 3, intensity 200: the encoder does
not fail, and returns `0x46 ++ 0x03 ++ 0xC8` although 200 is far above the
documented intensity range. -/
theorem claim_C10_witness :
    ((MaxyMessages.set_module_intensity 3 200).isOk = false ↔ 15 < (3 : Int)) ∧
    MaxyMessages.set_module_intensity 3 200 = .ok [0x46, 3, 200] := by
  have h := claim_C10_intensity_misvalidation 3 200 (by decide) (by decide)
  exact ⟨h.1, (h.2.2 (by decide)).trans (by decide)⟩

/-- Claim C8: for every module_index in [0,63] and divider in [0,65000] the
speed-divider encoder returns bytes whose first byte is `0x46` — the opcode
of every `SetModuleIntensity` message — even though the distinct constant
`MID_SET_MODULE_SPEED_DIVIDER = 0x47` is declared for this command. -/
theorem claim_C8_speed_divider_opcode (m d : Int)
    (hm : 0 ≤ m ∧ m ≤ 63) (hd : 0 ≤ d ∧ d ≤ 65000) :
    MaxyMessages.set_module_speed_divider m d =
      .ok ([0x46] ++ bytesBE 1 m.toNat ++ bytesBE 2 d.toNat) ∧
    MaxyMessages.MID_SET_MODULE_SPEED_DIVIDER = [0x47] ∧
    MaxyMessages.MID_SET_MODULE_INTENSITY = [0x46] ∧
    (∀ (a b : Int) (msg : List Nat), MaxyMessages.set_module_intensity a b = .ok msg →
      msg.head? = some 0x46) := by
  refine ⟨?_, rfl, rfl, ?_⟩
  · have e1 := range_validate_int_ok "module_index" hm
    have e2 := range_validate_int_ok "speed_divider"
      (⟨hm.1, by omega⟩ : 0 ≤ m ∧ m ≤ 65000)
    have u1 : to_bytes_unsigned 1 m = .ok (bytesBE 1 m.toNat) :=
      to_bytes_unsigned_one_ok hm.1 (by omega)
    have u2 : to_bytes_unsigned 2 d = .ok (bytesBE 2 d.toNat) :=
      to_bytes_unsigned_two_ok hd.1 (by omega)
    simp only [MaxyMessages.set_module_speed_divider, e1, e2, u1, u2,
      MaxyMessages.MID_SET_MODULE_INTENSITY]
  · intro a b msg hmsg
    unfold MaxyMessages.set_module_intensity at hmsg
    repeat' split at hmsg
    all_goals first
      | exact Except.noConfusion hmsg
      | (injection hmsg with hh
         subst hh
         simp [MaxyMessages.MID_SET_MODULE_INTENSITY])

/-- Witness for claim C8 at module_index 3, divider 500: the encoded message
starts with `0x46` while the declared speed-divider constant is `0x47`. -/
theorem claim_C8_witness :
    MaxyMessages.set_module_speed_divider 3 500 = .ok [0x46, 3, 1, 244] ∧
    MaxyMessages.MID_SET_MODULE_SPEED_DIVIDER = [0x47] := by
  have h := claim_C8_speed_divider_opcode 3 500 (by decide) (by decide)
  exact ⟨h.1.trans (by decide), h.2.1⟩

/-- Claim C5: for any sub-module, a requested target whose clamped value
equals the cached target produces no write and leaves the cache unchanged;
an in-range requested target different from the cache updates the cache to
that value and hands exactly one framed `SetSubModuleTarget` message
(opcode `0x43`) carrying it to the sink. -/
theorem claim_C5_dedup_single_message (kind : ModuleKind) (mi si cache v : Int)
    (hmi : 0 ≤ mi ∧ mi ≤ 63) (hsi : 0 ≤ si ∧ si ≤ 7)
    (hmin : -9999999 ≤ kind.TARGET_MIN) (hmax : kind.TARGET_MAX ≤ 99999999) :
    (clamp v kind.TARGET_MIN kind.TARGET_MAX = cache →
      MaxySubModule.set_target kind mi si cache v = ⟨cache, [], none⟩) ∧
    (kind.TARGET_MIN ≤ v → v ≤ kind.TARGET_MAX → v ≠ cache →
      MaxySubModule.set_target kind mi si cache v =
        ⟨v, [frame ([0x43] ++ bytesBE 1 mi.toNat ++ bytesBE 1 si.toNat ++
          bytesBE 4 ((v % 4294967296).toNat))], none⟩) := by
  constructor
  · intro h
    simp [MaxySubModule.set_target, h]
  · intro h1 h2 hne
    have hcl : clamp v kind.TARGET_MIN kind.TARGET_MAX = v := clamp_of_mem h1 h2
    have henc : MaxyMessages.set_sub_module_target_message mi si v =
        .ok ([0x43] ++ bytesBE 1 mi.toNat ++ bytesBE 1 si.toNat ++
          bytesBE 4 ((v % 4294967296).toNat)) :=
      set_sub_module_target_message_eq_ok hmi hsi ⟨by omega, by omega⟩
    simp [MaxySubModule.set_target, hcl, hne, henc]

/-- Witness for claim C5 on the second sub-module of a `2x4x7seg` module at
index 0: re-requesting the cached value 0 writes nothing; requesting 5 caches
5 and writes one framed opcode-0x43 message carrying 5. -/
theorem claim_C5_witness :
    MaxySubModule.set_target MaxyModule_2x4x7seg 0 1 0 0 = ⟨0, [], none⟩ ∧
    MaxySubModule.set_target MaxyModule_2x4x7seg 0 1 0 5 =
      ⟨5, [frame [0x43, 0, 1, 0, 0, 0, 5]], none⟩ := by
  have h1 := (claim_C5_dedup_single_message MaxyModule_2x4x7seg 0 1 0 0
    (by decide) (by decide) (by decide) (by decide)).1 (by decide)
  have h2 := (claim_C5_dedup_single_message MaxyModule_2x4x7seg 0 1 0 5
    (by decide) (by decide) (by decide) (by decide)).2 (by decide) (by decide) (by decide)
  exact ⟨h1, h2.trans (by decide)⟩

/-- Claim C6: a freshly constructed sub-module cache (0) lies in the kind
target range; after a target or immediate-target operation with any requested
integer the cache still lies in the range; a request below/above the range
clamps to the nearest bound; and any byte sequence written carries the
clamped value, not the requested one (opcode `0x43`, or `0x45` immediate). -/
theorem claim_C6_target_clamped_invariant (kind : ModuleKind) (mi si cache v : Int)
    (hk : kind.TARGET_MIN ≤ kind.TARGET_MAX)
    (h0 : kind.TARGET_MIN ≤ 0 ∧ 0 ≤ kind.TARGET_MAX)
    (hcache : kind.TARGET_MIN ≤ cache ∧ cache ≤ kind.TARGET_MAX)
    (hmi : 0 ≤ mi ∧ mi ≤ 63) (hsi : 0 ≤ si ∧ si ≤ 7)
    (hmin : -9999999 ≤ kind.TARGET_MIN) (hmax : kind.TARGET_MAX ≤ 99999999) :
    (∀ c ∈ (MaxyModule.init kind mi).sub_modules,
      kind.TARGET_MIN ≤ c ∧ c ≤ kind.TARGET_MAX) ∧
    (kind.TARGET_MIN ≤ (MaxySubModule.set_target kind mi si cache v).state ∧
      (MaxySubModule.set_target kind mi si cache v).state ≤ kind.TARGET_MAX) ∧
    (kind.TARGET_MIN ≤ (MaxySubModule.set_immediate_target kind mi si cache v).state ∧
      (MaxySubModule.set_immediate_target kind mi si cache v).state ≤ kind.TARGET_MAX) ∧
    (v < kind.TARGET_MIN → clamp v kind.TARGET_MIN kind.TARGET_MAX = kind.TARGET_MIN) ∧
    (kind.TARGET_MAX < v → clamp v kind.TARGET_MIN kind.TARGET_MAX = kind.TARGET_MAX) ∧
    (∀ w ∈ (MaxySubModule.set_target kind mi si cache v).writes,
      w = frame ([0x43] ++ bytesBE 1 mi.toNat ++ bytesBE 1 si.toNat ++
        bytesBE 4 ((clamp v kind.TARGET_MIN kind.TARGET_MAX % 4294967296).toNat))) ∧
    (∀ w ∈ (MaxySubModule.set_immediate_target kind mi si cache v).writes,
      w = frame ([0x45] ++ bytesBE 1 mi.toNat ++ bytesBE 1 si.toNat ++
        bytesBE 4 ((clamp v kind.TARGET_MIN kind.TARGET_MAX % 4294967296).toNat))) := by
  have hclb : kind.TARGET_MIN ≤ clamp v kind.TARGET_MIN kind.TARGET_MAX := left_le_clamp v hk
  have hclt : clamp v kind.TARGET_MIN kind.TARGET_MAX ≤ kind.TARGET_MAX := clamp_le_right v _ _
  have henc : MaxyMessages.set_sub_module_target_message mi si
      (clamp v kind.TARGET_MIN kind.TARGET_MAX) =
      .ok ([0x43] ++ bytesBE 1 mi.toNat ++ bytesBE 1 si.toNat ++
        bytesBE 4 ((clamp v kind.TARGET_MIN kind.TARGET_MAX % 4294967296).toNat)) :=
    set_sub_module_target_message_eq_ok hmi hsi ⟨by omega, by omega⟩
  have henc2 : MaxyMessages.set_sub_module_immediate_target_message mi si
      (clamp v kind.TARGET_MIN kind.TARGET_MAX) =
      .ok ([0x45] ++ bytesBE 1 mi.toNat ++ bytesBE 1 si.toNat ++
        bytesBE 4 ((clamp v kind.TARGET_MIN kind.TARGET_MAX % 4294967296).toNat)) :=
    set_sub_module_immediate_target_message_eq_ok hmi ⟨hsi.1, by omega⟩ ⟨by omega, by omega⟩
  refine ⟨?_, ?_, ?_, ?_, ?_, ?_, ?_⟩
  · intro c hc
    simp only [MaxyModule.init] at hc
    have hce := List.eq_of_mem_replicate hc
    subst hce
    exact h0
  · by_cases hch : clamp v kind.TARGET_MIN kind.TARGET_MAX = cache
    · simpa [MaxySubModule.set_target, hch] using hcache
    · cases he : MaxyMessages.set_sub_module_target_message mi si
          (clamp v kind.TARGET_MIN kind.TARGET_MAX) with
      | error e => simpa [MaxySubModule.set_target, hch, he] using ⟨hclb, hclt⟩
      | ok msg => simpa [MaxySubModule.set_target, hch, he] using ⟨hclb, hclt⟩
  · by_cases hch : clamp v kind.TARGET_MIN kind.TARGET_MAX = cache
    · simpa [MaxySubModule.set_immediate_target, hch] using hcache
    · cases he : MaxyMessages.set_sub_module_immediate_target_message mi si
          (clamp v kind.TARGET_MIN kind.TARGET_MAX) with
      | error e => simpa [MaxySubModule.set_immediate_target, hch, he] using ⟨hclb, hclt⟩
      | ok msg => simpa [MaxySubModule.set_immediate_target, hch, he] using ⟨hclb, hclt⟩
  · intro hlt
    exact clamp_of_le_left hk (le_of_lt hlt)
  · intro hlt
    exact clamp_of_le_right hk (le_of_lt hlt)
  · intro w hw
    by_cases hch : clamp v kind.TARGET_MIN kind.TARGET_MAX = cache
    · simp [MaxySubModule.set_target, hch] at hw
    · simp [MaxySubModule.set_target, hch, henc] at hw
      exact hw
  · intro w hw
    by_cases hch : clamp v kind.TARGET_MIN kind.TARGET_MAX = cache
    · simp [MaxySubModule.set_immediate_target, hch] at hw
    · simp [MaxySubModule.set_immediate_target, hch, henc2] at hw
      exact hw

/-- Witness for claim C6 on an `8x7seg` sub-module with cache 0 and the
out-of-range request 100000000: the new cache stays within the kind range,
and the clamped value is the upper bound 99999999. -/
theorem claim_C6_witness :
    (-9999999 ≤ (MaxySubModule.set_target MaxyModule_8x7seg 0 0 0 100000000).state ∧
      (MaxySubModule.set_target MaxyModule_8x7seg 0 0 0 100000000).state ≤ 99999999) ∧
    clamp 100000000 (-9999999) 99999999 = 99999999 := by
  have h := claim_C6_target_clamped_invariant MaxyModule_8x7seg 0 0 0 100000000
    (by decide) (by decide) (by decide) (by decide) (by decide) (by decide) (by decide)
  exact ⟨h.2.1, h.2.2.2.2.1 (by decide)⟩

/-- Claim C7 counterexample: on the module at index 20 (cached intensity 0),
setting intensity 5 raises (the encoder rejects module_index 20 under the
name "intensity") yet the cached intensity has already been changed to 5, so
a raising set-intensity call does not leave the cache at its pre-call
value. -/
theorem claim_C7_counterexample :
    (MaxyModule.set_intensity (MaxyModule.init MaxyModule_8x7seg 20) 5).error.isSome = true ∧
    (MaxyModule.set_intensity (MaxyModule.init MaxyModule_8x7seg 20) 5).state.intensity = 5 ∧
    (MaxyModule.init MaxyModule_8x7seg 20).intensity = 0 := by
  decide

/-- Claim C7, amended: when a set-intensity call raises, the error occurs
before any bytes are handed to the sink (no write is performed), but the
cached intensity has already been updated to the clamped requested value —
the cache is mutated before the encoder runs, so the operation is not atomic
on failure. -/
theorem claim_C7_amended (st : MaxyModule) (v : Int)
    (h : (MaxyModule.set_intensity st v).error.isSome = true) :
    (MaxyModule.set_intensity st v).writes = [] ∧
    (MaxyModule.set_intensity st v).state.intensity = clamp v 0 15 := by
  by_cases hc : clamp v 0 15 = st.intensity
  · exfalso
    simp [MaxyModule.set_intensity, hc] at h
  · cases he : MaxyMessages.set_module_intensity st.module_index (clamp v 0 15) with
    | error e => constructor <;> simp [MaxyModule.set_intensity, hc, he]
    | ok msg =>
      exfalso
      simp [MaxyModule.set_intensity, hc, he] at h

/-- Witness for claim C7 amended, at module index 20 with requested
intensity 5: the raising call writes nothing and leaves the cache at the
clamped requested value 5. -/
theorem claim_C7_witness :
    (MaxyModule.set_intensity (MaxyModule.init MaxyModule_8x7seg 20) 5).writes = [] ∧
    (MaxyModule.set_intensity (MaxyModule.init MaxyModule_8x7seg 20) 5).state.intensity =
      clamp 5 0 15 :=
  claim_C7_amended (MaxyModule.init MaxyModule_8x7seg 20) 5 (by decide)

/-- Claim C9: on a module whose kind forbids direct main-target changes,
setting the main target (immediate or not) raises, hands nothing to the
sink, and leaves the whole module state — every sub-module cache included —
unchanged. -/
theorem claim_C9_unsupported_main_target (st : MaxyModule) (v : Int)
    (h : st.kind.ALLOW_MAIN_MODULE_TARGET_CHANGES = false) :
    (MaxyModule.set_target st v).error.isSome = true ∧
    (MaxyModule.set_target st v).writes = [] ∧
    (MaxyModule.set_target st v).state = st ∧
    (MaxyModule.set_immediate_target st v).error.isSome = true ∧
    (MaxyModule.set_immediate_target st v).writes = [] ∧
    (MaxyModule.set_immediate_target st v).state = st := by
  refine ⟨?_, ?_, ?_, ?_, ?_, ?_⟩ <;>
    simp [MaxyModule.set_target, MaxyModule.set_immediate_target, h]

/-- Witness for claim C9 on a `2x4x7seg` module (which forbids direct
main-target changes) at index 8, requested target 123. -/
theorem claim_C9_witness :
    (MaxyModule.set_target (MaxyModule.init MaxyModule_2x4x7seg 8) 123).error.isSome = true ∧
    (MaxyModule.set_target (MaxyModule.init MaxyModule_2x4x7seg 8) 123).writes = [] ∧
    (MaxyModule.set_target (MaxyModule.init MaxyModule_2x4x7seg 8) 123).state =
      MaxyModule.init MaxyModule_2x4x7seg 8 ∧
    (MaxyModule.set_immediate_target
      (MaxyModule.init MaxyModule_2x4x7seg 8) 123).error.isSome = true ∧
    (MaxyModule.set_immediate_target (MaxyModule.init MaxyModule_2x4x7seg 8) 123).writes = [] ∧
    (MaxyModule.set_immediate_target (MaxyModule.init MaxyModule_2x4x7seg 8) 123).state =
      MaxyModule.init MaxyModule_2x4x7seg 8 :=
  claim_C9_unsupported_main_target (MaxyModule.init MaxyModule_2x4x7seg 8) 123 (by decide)

/-- Claim C1: registering the single definition ("Right1", 8x7seg kind)
yields exactly the module at index 0 with sub-module cache 0 and the name
entry for "Right1"; setting that module's target to 42 non-immediately hands
exactly one byte sequence to the sink, namely
`[0xFD, 0x43, 0x00, 0x00, 0x00, 0x00, 0x00, 0x2A, 0xFE]` — the opcode
`0x43`, module byte 0, sub-module byte 0, and the 4-byte big-endian
two's-complement target 0x0000002A, framed between `0xFD` and `0xFE` —
raising nothing and caching 42. -/
theorem claim_C1_end_to_end :
    define_modules [⟨some "Right1", MaxyModule_8x7seg, []⟩] =
      ([MaxyModule.init MaxyModule_8x7seg 0], [("Right1", NameRef.module 0)]) ∧
    (MaxyModule.set_target (MaxyModule.init MaxyModule_8x7seg 0) 42).writes =
      [[0xfd, 0x43, 0x00, 0x00, 0x00, 0x00, 0x00, 0x2a, 0xfe]] ∧
    (MaxyModule.set_target (MaxyModule.init MaxyModule_8x7seg 0) 42).error = none ∧
    (MaxyModule.set_target (MaxyModule.init MaxyModule_8x7seg 0) 42).state.sub_modules =
      [42] := by
  refine ⟨by decide, by decide, by decide, by decide⟩

end Maxy
